import Mathlib

/-!
Shallow embedding of the budget calculation engine of The_Number
(`src/calculator.py`, `src/database.py`, `api/main.py`).

Conventions of the embedding:
* Python floats holding dollar amounts are modelled as `ℚ`.
* A `datetime` is modelled by its calendar date, an `ℤ` day index
  (every use in the embedded code first projects to `.date()`).
* `datetime.now().date()` is modelled by an explicit `today : ℤ`
  parameter threaded to each function that reads the clock.
* A Python function that can `raise ValueError` becomes
  `Except String _`; the string is the error message.
* `float("inf")` sentinels are modelled by the tagged type `ExtQ`.
-/

namespace TheNumber

/-- MAX_AMOUNT from calculator.py: maximum dollar amount. -/
def MAX_AMOUNT : ℚ := 10000000

/-- MAX_DAYS_UNTIL_PAYCHECK from calculator.py. -/
def MAX_DAYS_UNTIL_PAYCHECK : ℤ := 365

/-- MAX_STRING_LENGTH from calculator.py. -/
def MAX_STRING_LENGTH : ℕ := 200

/-- Expense dataclass: name, amount, is_fixed. -/
structure Expense where
  name : String
  amount : ℚ
  is_fixed : Bool
deriving Repr, DecidableEq

/-- Expense.__post_init__: validation run by the dataclass constructor.
Returns the constructed expense or the raised error. -/
def mkExpense (name : String) (amount : ℚ) (is_fixed : Bool) : Except String Expense :=
  if amount < 0 then .error "Expense amount cannot be negative"
  else if amount > MAX_AMOUNT then .error "Expense amount exceeds maximum"
  else .ok ⟨name, amount, is_fixed⟩

/-- Transaction dataclass: date, amount, description, optional category.
The date field keeps only the calendar date (an `ℤ` day index), which is
all the embedded code ever reads from it. -/
structure Transaction where
  date : ℤ
  amount : ℚ
  description : String
  category : Option String
deriving Repr, DecidableEq

/-- Transaction.__post_init__: validation run by the dataclass constructor. -/
def mkTransaction (date : ℤ) (amount : ℚ) (description : String)
    (category : Option String) : Except String Transaction :=
  if amount < 0 then .error "Transaction amount cannot be negative"
  else if amount > MAX_AMOUNT then .error "Transaction amount exceeds maximum"
  else .ok ⟨date, amount, description, category⟩

/-- BudgetCalculator state: the expense ledger and the transaction list. -/
structure BudgetCalculator where
  expenses : List Expense
  transactions : List Transaction
deriving Repr, DecidableEq

/-- BudgetCalculator.add_expense: construct an Expense (running its
validation) and append it to the ledger. -/
def add_expense (c : BudgetCalculator) (name : String) (amount : ℚ)
    (is_fixed : Bool) : Except String BudgetCalculator :=
  match mkExpense name amount is_fixed with
  | .error e => .error e
  | .ok expense => .ok { c with expenses := c.expenses ++ [expense] }

/-- BudgetCalculator.get_total_expenses: sum of all expense amounts. -/
def get_total_expenses (c : BudgetCalculator) : ℚ :=
  (c.expenses.map Expense.amount).sum

/-- BudgetCalculator.get_today_spending: total spending dated today,
excluding income transactions (category must differ from "income").
`today` embeds `datetime.now().date()`. -/
def get_today_spending (c : BudgetCalculator) (today : ℤ) : ℚ :=
  ((c.transactions.filter
      (fun t => t.date == today && t.category != some "income")).map
    Transaction.amount).sum

/-- BudgetCalculator.get_period_spending: total spending with date in the
inclusive range, excluding income transactions. -/
def get_period_spending (c : BudgetCalculator) (start_date end_date : ℤ) : ℚ :=
  ((c.transactions.filter
      (fun t => start_date ≤ t.date && t.date ≤ end_date
        && t.category != some "income")).map
    Transaction.amount).sum

/-- The dictionary returned by calculate_paycheck_mode. -/
structure PaycheckResult where
  total_income : ℚ
  total_expenses : ℚ
  remaining_money : ℚ
  days_remaining : ℤ
  daily_limit : ℚ
  is_deficit : Bool
  deficit_amount : ℚ
  mode : String
deriving Repr, DecidableEq

/-- BudgetCalculator.calculate_paycheck_mode. -/
def calculate_paycheck_mode (c : BudgetCalculator) (monthly_income : ℚ)
    (days_until_paycheck : ℤ) : Except String PaycheckResult :=
  if monthly_income < 0 then .error "Monthly income cannot be negative"
  else if days_until_paycheck ≤ 0 then .error "Days until paycheck must be positive"
  else if days_until_paycheck > MAX_DAYS_UNTIL_PAYCHECK then
    .error "Days until paycheck cannot exceed the maximum"
  else
    let total_expenses := get_total_expenses c
    let remaining_money := monthly_income - total_expenses
    let is_deficit := decide (remaining_money < 0)
    let daily_limit := max 0 (remaining_money / (days_until_paycheck : ℚ))
    .ok { total_income := monthly_income
          total_expenses := total_expenses
          remaining_money := remaining_money
          days_remaining := days_until_paycheck
          daily_limit := daily_limit
          is_deficit := is_deficit
          deficit_amount := |min 0 remaining_money|
          mode := "paycheck" }

/-- Python float extended with the sentinel value float("inf"),
used for infinite-runway figures. -/
inductive ExtQ where
  | fin : ℚ → ExtQ
  | inf : ExtQ
deriving Repr, DecidableEq

/-- The dictionary returned by calculate_fixed_pool_mode. Keys that are
absent in some branches are `Option` fields (`none` = key absent); a date
key whose value may be Python `None` is `Option (Option ℚ)` (inner `none`
= the key holds `None`). A fractional date `today + timedelta(days=q)` is
embedded as the rational `today + q`. -/
structure FixedPoolResult where
  total_money : ℚ
  total_expenses : ℚ
  months_remaining : ExtQ
  days_remaining : ExtQ
  daily_limit : ℚ
  out_of_money : Option Bool
  target_end_date : Option ℤ
  end_date : Option (Option ℚ)
  alt_daily_expenses : Option ℚ
  alt_end_date : Option (Option ℚ)
  alt_days_remaining : Option ExtQ
  alt_daily_limit : Option ℚ
  mode : String
  calculation_mode : Option String
deriving Repr, DecidableEq

/-- BudgetCalculator.calculate_fixed_pool_mode. `today` embeds
`datetime.now().date()`; a `target_end_date` is already projected to its
calendar date as in the source (`target_end_date.date()`). -/
def calculate_fixed_pool_mode (c : BudgetCalculator) (today : ℤ)
    (total_money : ℚ) (target_end_date : Option ℤ)
    (daily_spending_limit : Option ℚ) : Except String FixedPoolResult :=
  if total_money < 0 then .error "Total money cannot be negative"
  else
    let total_expenses := get_total_expenses c
    -- Handle zero money case
    if total_money ≤ 0 then
      .ok { total_money := total_money
            total_expenses := total_expenses
            months_remaining := .fin 0
            days_remaining := .fin 0
            daily_limit := 0
            out_of_money := some true
            target_end_date := none
            end_date := none
            alt_daily_expenses := none
            alt_end_date := none
            alt_days_remaining := none
            alt_daily_limit := none
            mode := "fixed_pool"
            calculation_mode := none }
    else
      match target_end_date with
      | some target_date =>
        -- Option B: last until the target date
        let days_until_target : ℤ := target_date - today
        if days_until_target ≤ 0 then .error "Target end date must be in the future"
        else
          let daily_expense_rate := total_expenses / 30
          let total_expenses_for_period := daily_expense_rate * (days_until_target : ℚ)
          let remaining_money := total_money - total_expenses_for_period
          let daily_limit_option_b := max 0 (remaining_money / (days_until_target : ℚ))
          let months_remaining_b := (days_until_target : ℚ) / 30
          let alt : ExtQ × Option ℚ :=
            if total_expenses > 0 then
              let days_if_spending_expenses := total_money / (total_expenses / 30)
              (.fin days_if_spending_expenses, some ((today : ℚ) + days_if_spending_expenses))
            else (.inf, none)
          .ok { total_money := total_money
                total_expenses := total_expenses
                daily_limit := daily_limit_option_b
                target_end_date := some target_date
                days_remaining := .fin (days_until_target : ℚ)
                months_remaining := .fin months_remaining_b
                alt_daily_expenses := some (if total_expenses > 0 then total_expenses / 30 else 0)
                alt_end_date := some alt.2
                alt_days_remaining := some alt.1
                out_of_money := none
                end_date := none
                alt_daily_limit := none
                mode := "fixed_pool"
                calculation_mode := some "target_date" }
      | none =>
        match daily_spending_limit with
        | some dsl =>
          -- Option C: last at a given daily limit
          if dsl ≤ 0 then .error "Daily spending limit must be positive"
          else
            let days_it_will_last := total_money / dsl
            let end_date := (today : ℚ) + days_it_will_last
            let months_remaining := days_it_will_last / 30
            let alt : ExtQ × ℚ :=
              if total_expenses > 0 then
                let days_based_on_expenses := total_money / (total_expenses / 30)
                (.fin days_based_on_expenses,
                 if days_based_on_expenses > 0 then total_money / days_based_on_expenses else 0)
              else (.inf, 0)
            .ok { total_money := total_money
                  total_expenses := total_expenses
                  daily_limit := dsl
                  end_date := some (some end_date)
                  days_remaining := .fin days_it_will_last
                  months_remaining := .fin months_remaining
                  alt_daily_limit := some alt.2
                  alt_days_remaining := some alt.1
                  out_of_money := none
                  target_end_date := none
                  alt_daily_expenses := none
                  alt_end_date := none
                  mode := "fixed_pool"
                  calculation_mode := some "daily_limit" }
        | none =>
          -- Fallback: derive the runway from monthly expenses
          if total_expenses > 0 then
            let months_remaining := total_money / total_expenses
            let days_remaining := months_remaining * 30
            let daily_limit := if days_remaining > 0 then total_money / days_remaining else 0
            .ok { total_money := total_money
                  total_expenses := total_expenses
                  months_remaining := .fin months_remaining
                  days_remaining := .fin days_remaining
                  daily_limit := daily_limit
                  end_date := some (some ((today : ℚ) + days_remaining))
                  out_of_money := none
                  target_end_date := none
                  alt_daily_expenses := none
                  alt_end_date := none
                  alt_days_remaining := none
                  alt_daily_limit := none
                  mode := "fixed_pool"
                  calculation_mode := some "expenses_based" }
          else
            .ok { total_money := total_money
                  total_expenses := total_expenses
                  months_remaining := .inf
                  days_remaining := .inf
                  daily_limit := 0
                  end_date := some none
                  out_of_money := none
                  target_end_date := none
                  alt_daily_expenses := none
                  alt_end_date := none
                  alt_days_remaining := none
                  alt_daily_limit := none
                  mode := "fixed_pool"
                  calculation_mode := some "expenses_based" }

/-- The keyword-argument bag accepted by BudgetCalculator.get_number. -/
structure Kwargs where
  monthly_income : Option ℚ := none
  days_until_paycheck : Option ℤ := none
  total_money : Option ℚ := none
  target_end_date : Option ℤ := none
  daily_spending_limit : Option ℚ := none
deriving Repr, DecidableEq

/-- BudgetCalculator.get_number: dispatch on the mode string and return
the daily_limit entry of the resulting dictionary. For fixed_pool mode
only total_money is forwarded, with the same defaults as kwargs.get. -/
def get_number (c : BudgetCalculator) (today : ℤ) (mode : String)
    (kwargs : Kwargs) : Except String ℚ :=
  if mode == "paycheck" then
    (calculate_paycheck_mode c (kwargs.monthly_income.getD 0)
      (kwargs.days_until_paycheck.getD 1)).map PaycheckResult.daily_limit
  else if mode == "fixed_pool" then
    (calculate_fixed_pool_mode c today (kwargs.total_money.getD 0)
      none none).map FixedPoolResult.daily_limit
  else .error "Invalid mode. Must be paycheck or fixed_pool"

/-- Python str.strip(): drop leading and trailing whitespace. Stated on
the character list so that it evaluates by structural recursion. -/
def pyStrip (s : String) : String :=
  ⟨((s.data.dropWhile Char.isWhitespace).reverse.dropWhile
      Char.isWhitespace).reverse⟩

/-- EncryptedDatabase.add_expense (database.py): the validation performed
when an expense is added to the persistent ledger, and the stored row
(name trimmed). The Python guard `not name or not name.strip()` is
equivalent to the stripped name being empty. -/
def db_add_expense (name : String) (amount : ℚ) (is_fixed : Bool) :
    Except String Expense :=
  if amount < 0 then .error "Expense amount cannot be negative"
  else if amount > 10000000 then .error "Amount exceeds maximum"
  else if pyStrip name == "" then .error "Expense name is required"
  else if name.length > 200 then .error "Expense name too long (max 200 characters)"
  else .ok ⟨pyStrip name, amount, is_fixed⟩

/-- EncryptedDatabase.add_transaction (database.py): the validation
performed when a transaction is recorded, and the stored row
(description trimmed). -/
def db_add_transaction (date : ℤ) (amount : ℚ) (description : String)
    (category : Option String) : Except String Transaction :=
  if amount ≤ 0 then .error "Transaction amount must be positive"
  else if amount > 10000000 then .error "Amount exceeds maximum"
  else if pyStrip description == "" then .error "Transaction description is required"
  else if description.length > 200 then .error "Description too long (max 200 characters)"
  else .ok ⟨date, amount, pyStrip description, category⟩

/-- EncryptedDatabase.get_total_spending_today (database.py): the SQL
`SELECT SUM(amount) FROM transactions WHERE user_id = ? AND DATE(date) =
DATE(?)` over the user's rows. The query has no category filter. -/
def db_get_total_spending_today (transactions : List Transaction)
    (today : ℤ) : ℚ :=
  ((transactions.filter (fun t => t.date == today)).map Transaction.amount).sum

/-- api/main.py get_the_number: `remaining_today = result["daily_limit"] -
db.get_total_spending_today(user_id)`. -/
def api_remaining_today (daily_limit : ℚ) (transactions : List Transaction)
    (today : ℤ) : ℚ :=
  daily_limit - db_get_total_spending_today transactions today

lemma abs_min_zero (q : ℚ) : |min 0 q| = max 0 (-q) := by
  rcases le_total 0 q with h | h
  · rw [min_eq_left h, abs_zero, max_eq_left (neg_nonpos.mpr h)]
  · rw [min_eq_right h, abs_of_nonpos h, max_eq_right (neg_nonneg.mpr h)]

/-- C1: for every monthly_income ≥ 0 and 1 ≤ days_until_paycheck ≤ 365,
calculate_paycheck_mode returns remaining_money = monthly_income minus the
sum of the ledger's expense amounts, is_deficit = (remaining_money < 0),
deficit_amount = max 0 (-remaining_money), days_remaining =
days_until_paycheck, daily_limit = max 0 (remaining_money /
days_until_paycheck), and daily_limit ≥ 0 even in deficit. -/
theorem paycheck_mode_correct (c : BudgetCalculator) (monthly_income : ℚ)
    (days_until_paycheck : ℤ) (h0 : 0 ≤ monthly_income)
    (h1 : 1 ≤ days_until_paycheck) (h2 : days_until_paycheck ≤ 365) :
    ∃ r, calculate_paycheck_mode c monthly_income days_until_paycheck = .ok r ∧
      r.remaining_money = monthly_income - (c.expenses.map Expense.amount).sum ∧
      r.is_deficit = decide (r.remaining_money < 0) ∧
      r.deficit_amount = max 0 (-r.remaining_money) ∧
      r.days_remaining = days_until_paycheck ∧
      r.daily_limit = max 0 (r.remaining_money / (days_until_paycheck : ℚ)) ∧
      0 ≤ r.daily_limit := by
  unfold calculate_paycheck_mode MAX_DAYS_UNTIL_PAYCHECK
  rw [if_neg (not_lt.mpr h0), if_neg (by omega : ¬ days_until_paycheck ≤ 0),
    if_neg (by omega : ¬ days_until_paycheck > 365)]
  exact ⟨_, rfl, rfl, rfl, abs_min_zero _, rfl, rfl, le_max_left 0 _⟩

/-- Witness for paycheck_mode_correct at income 3000, one expense of 2000,
15 days until the paycheck. -/
theorem paycheck_mode_correct_witness :
    ∃ r, calculate_paycheck_mode ⟨[⟨"rent", 2000, true⟩], []⟩ 3000 15 = .ok r ∧
      r.remaining_money =
        3000 - ((([⟨"rent", 2000, true⟩] : List Expense).map Expense.amount).sum) ∧
      r.is_deficit = decide (r.remaining_money < 0) ∧
      r.deficit_amount = max 0 (-r.remaining_money) ∧
      r.days_remaining = 15 ∧
      r.daily_limit = max 0 (r.remaining_money / ((15 : ℤ) : ℚ)) ∧
      0 ≤ r.daily_limit :=
  paycheck_mode_correct ⟨[⟨"rent", 2000, true⟩], []⟩ 3000 15 (by norm_num)
    (by norm_num) (by norm_num)

/-- C7: calculate_paycheck_mode raises exactly when monthly_income < 0 or
days_until_paycheck lies outside 1..365; in particular 0, -5 and 366 days
raise and 365 days is accepted. -/
theorem paycheck_mode_validation (c : BudgetCalculator) (monthly_income : ℚ)
    (days_until_paycheck : ℤ) :
    (∃ e, calculate_paycheck_mode c monthly_income days_until_paycheck = .error e)
      ↔ (monthly_income < 0 ∨ days_until_paycheck < 1 ∨ 365 < days_until_paycheck) := by
  unfold calculate_paycheck_mode MAX_DAYS_UNTIL_PAYCHECK
  split_ifs with h1 h2 h3 <;> simp_all <;> omega

/-- C2: fixed-pool mode with neither target_end_date nor
daily_spending_limit (the fallback variant) and total_money > 0: with
positive expenses, months_remaining = total_money / total_expenses,
days_remaining = months_remaining * 30 exactly and daily_limit =
total_money / days_remaining exactly; with zero expenses the runway
figures are the infinity sentinel and daily_limit = 0, returned as an ok
result, not an error. -/
theorem fixed_pool_fallback_correct (c : BudgetCalculator) (today : ℤ)
    (total_money : ℚ) (hm : 0 < total_money) :
    ∃ r, calculate_fixed_pool_mode c today total_money none none = .ok r ∧
      (0 < get_total_expenses c →
        r.months_remaining = .fin (total_money / get_total_expenses c) ∧
        r.days_remaining = .fin (total_money / get_total_expenses c * 30) ∧
        r.daily_limit = total_money / (total_money / get_total_expenses c * 30)) ∧
      (get_total_expenses c = 0 →
        r.months_remaining = .inf ∧ r.days_remaining = .inf ∧ r.daily_limit = 0) := by
  simp only [calculate_fixed_pool_mode]
  rw [if_neg (not_lt.mpr hm.le), if_neg (not_le.mpr hm)]
  by_cases hE : get_total_expenses c > 0
  · rw [if_pos hE,
      if_pos (mul_pos (div_pos hm hE) (by norm_num : (0:ℚ) < 30))]
    exact ⟨_, rfl, fun _ => ⟨rfl, rfl, rfl⟩, fun h0 => (hE.ne' h0).elim⟩
  · rw [if_neg hE]
    exact ⟨_, rfl, fun h => (hE h).elim, fun _ => ⟨rfl, rfl, rfl⟩⟩

/-- Witness for fixed_pool_fallback_correct with a 3000-per-month expense
ledger and a 3000 pool, and with an empty ledger and a 5000 pool. -/
theorem fixed_pool_fallback_correct_witness :
    (∃ r, calculate_fixed_pool_mode ⟨[⟨"food", 3000, true⟩], []⟩ 0 3000 none none = .ok r ∧
      (0 < get_total_expenses ⟨[⟨"food", 3000, true⟩], []⟩ →
        r.months_remaining =
          .fin (3000 / get_total_expenses ⟨[⟨"food", 3000, true⟩], []⟩) ∧
        r.days_remaining =
          .fin (3000 / get_total_expenses ⟨[⟨"food", 3000, true⟩], []⟩ * 30) ∧
        r.daily_limit =
          3000 / (3000 / get_total_expenses ⟨[⟨"food", 3000, true⟩], []⟩ * 30)) ∧
      (get_total_expenses ⟨[⟨"food", 3000, true⟩], []⟩ = 0 →
        r.months_remaining = .inf ∧ r.days_remaining = .inf ∧ r.daily_limit = 0)) ∧
    (∃ r, calculate_fixed_pool_mode ⟨[], []⟩ 0 5000 none none = .ok r ∧
      (0 < get_total_expenses ⟨[], []⟩ →
        r.months_remaining = .fin (5000 / get_total_expenses ⟨[], []⟩) ∧
        r.days_remaining = .fin (5000 / get_total_expenses ⟨[], []⟩ * 30) ∧
        r.daily_limit = 5000 / (5000 / get_total_expenses ⟨[], []⟩ * 30)) ∧
      (get_total_expenses ⟨[], []⟩ = 0 →
        r.months_remaining = .inf ∧ r.days_remaining = .inf ∧ r.daily_limit = 0)) :=
  ⟨fixed_pool_fallback_correct ⟨[⟨"food", 3000, true⟩], []⟩ 0 3000 (by norm_num),
   fixed_pool_fallback_correct ⟨[], []⟩ 0 5000 (by norm_num)⟩

/-- C3: fixed-pool mode with a target_end_date and total_money > 0 raises
when days_until_target = target_date - today is not positive, and
otherwise returns daily_limit = max 0 ((total_money - total_expenses/30 *
days_until_target) / days_until_target), days_remaining =
days_until_target and months_remaining = days_until_target / 30. -/
theorem fixed_pool_target_date_correct (c : BudgetCalculator)
    (today target_date : ℤ) (total_money : ℚ) (dsl : Option ℚ)
    (hm : 0 < total_money) :
    (target_date - today ≤ 0 →
      calculate_fixed_pool_mode c today total_money (some target_date) dsl =
        .error "Target end date must be in the future") ∧
    (0 < target_date - today →
      ∃ r, calculate_fixed_pool_mode c today total_money (some target_date) dsl
          = .ok r ∧
        r.daily_limit =
          max 0 ((total_money -
              get_total_expenses c / 30 * ((target_date - today : ℤ) : ℚ)) /
            ((target_date - today : ℤ) : ℚ)) ∧
        r.days_remaining = .fin ((target_date - today : ℤ) : ℚ) ∧
        r.months_remaining = .fin (((target_date - today : ℤ) : ℚ) / 30)) := by
  constructor
  · intro h
    simp only [calculate_fixed_pool_mode]
    rw [if_neg (not_lt.mpr hm.le), if_neg (not_le.mpr hm), if_pos h]
  · intro h
    simp only [calculate_fixed_pool_mode]
    rw [if_neg (not_lt.mpr hm.le), if_neg (not_le.mpr hm),
      if_neg (by omega : ¬ target_date - today ≤ 0)]
    exact ⟨_, rfl, rfl, rfl, rfl⟩

/-- Witness for fixed_pool_target_date_correct: pool 5000, empty ledger,
today = 0, target 30 days away; both the past-date and future-date parts
are exercised (target -1 raises, target 30 succeeds). -/
theorem fixed_pool_target_date_correct_witness :
    (calculate_fixed_pool_mode ⟨[], []⟩ 0 5000 (some (-1)) none =
      .error "Target end date must be in the future") ∧
    (∃ r, calculate_fixed_pool_mode ⟨[], []⟩ 0 5000 (some 30) none = .ok r ∧
      r.daily_limit =
        max 0 ((5000 - get_total_expenses ⟨[], []⟩ / 30 * (((30 : ℤ) - 0 : ℤ) : ℚ)) /
          (((30 : ℤ) - 0 : ℤ) : ℚ)) ∧
      r.days_remaining = .fin (((30 : ℤ) - 0 : ℤ) : ℚ) ∧
      r.months_remaining = .fin ((((30 : ℤ) - 0 : ℤ) : ℚ) / 30)) :=
  ⟨(fixed_pool_target_date_correct ⟨[], []⟩ 0 (-1) 5000 none (by norm_num)).1
      (by norm_num),
   (fixed_pool_target_date_correct ⟨[], []⟩ 0 30 5000 none (by norm_num)).2
      (by norm_num)⟩

/-- C4: fixed-pool mode with total_money = 0 returns out_of_money = true
with months_remaining, days_remaining and daily_limit all zero, whatever
the expenses and whether or not a target_end_date or daily_spending_limit
is supplied: the zero-money branch takes priority over the target-date,
daily-cap and fallback branches. -/
theorem fixed_pool_zero_money (c : BudgetCalculator) (today : ℤ)
    (target_end_date : Option ℤ) (daily_spending_limit : Option ℚ) :
    ∃ r, calculate_fixed_pool_mode c today 0 target_end_date daily_spending_limit
        = .ok r ∧
      r.out_of_money = some true ∧ r.months_remaining = .fin 0 ∧
      r.days_remaining = .fin 0 ∧ r.daily_limit = 0 := by
  simp only [calculate_fixed_pool_mode]
  rw [if_neg (lt_irrefl (0 : ℚ)), if_pos le_rfl]
  exact ⟨_, rfl, rfl, rfl, rfl, rfl⟩

/-- C5: the engine is deterministic in its inputs. With the clock read
embedded as the explicit `today` argument, both calculations are pure
functions of the expense ledger and their arguments: any two calculator
states with the same expense list (transactions and all other state may
differ) give identical results for identical arguments and the same
supplied "now". -/
theorem engine_deterministic (c1 c2 : BudgetCalculator) (today : ℤ)
    (monthly_income total_money : ℚ) (days_until_paycheck : ℤ)
    (target_end_date : Option ℤ) (daily_spending_limit : Option ℚ)
    (h : c1.expenses = c2.expenses) :
    calculate_paycheck_mode c1 monthly_income days_until_paycheck =
      calculate_paycheck_mode c2 monthly_income days_until_paycheck ∧
    calculate_fixed_pool_mode c1 today total_money target_end_date
        daily_spending_limit =
      calculate_fixed_pool_mode c2 today total_money target_end_date
        daily_spending_limit := by
  refine ⟨?_, ?_⟩ <;>
    simp only [calculate_paycheck_mode, calculate_fixed_pool_mode,
      get_total_expenses, h]

/-- Witness for engine_deterministic: two states sharing the expense list
but with different transaction lists produce identical results. -/
theorem engine_deterministic_witness :
    (calculate_paycheck_mode
        ⟨[⟨"rent", 100, true⟩], [⟨0, 5, "coffee", none⟩]⟩ 3000 15 =
      calculate_paycheck_mode ⟨[⟨"rent", 100, true⟩], []⟩ 3000 15) ∧
    (calculate_fixed_pool_mode
        ⟨[⟨"rent", 100, true⟩], [⟨0, 5, "coffee", none⟩]⟩ 0 500 none (some 5) =
      calculate_fixed_pool_mode ⟨[⟨"rent", 100, true⟩], []⟩ 0 500 none (some 5)) :=
  engine_deterministic ⟨[⟨"rent", 100, true⟩], [⟨0, 5, "coffee", none⟩]⟩
    ⟨[⟨"rent", 100, true⟩], []⟩ 0 3000 500 15 none (some 5) rfl

/-- C6: an income-tagged transaction contributes nothing to the
calculator's spending sums, but the database query behind the API's
remaining_today figure has no category filter: a 50-dollar income entry
dated today is excluded by get_today_spending and get_period_spending yet
is counted by db_get_total_spending_today, so it reduces
api_remaining_today (here from a 100 daily limit down to 50). -/
theorem income_exclusion_divergence :
    get_today_spending ⟨[], [⟨0, 50, "Money In", some "income"⟩]⟩ 0 = 0 ∧
    get_period_spending ⟨[], [⟨0, 50, "Money In", some "income"⟩]⟩ 0 0 = 0 ∧
    db_get_total_spending_today [⟨0, 50, "Money In", some "income"⟩] 0 = 50 ∧
    api_remaining_today 100 [⟨0, 50, "Money In", some "income"⟩] 0 = 50 := by
  refine ⟨?_, ?_, ?_, ?_⟩ <;>
    norm_num [get_today_spending, get_period_spending,
      db_get_total_spending_today, api_remaining_today, List.filter]

/-- C6, general part that does hold: an income-tagged transaction is
excluded from get_today_spending for every day and from
get_period_spending for every inclusive range, whatever the rest of the
transaction list. -/
theorem income_excluded_from_calculator_sums (exps : List Expense)
    (txs : List Transaction) (t : Transaction) (today start_d end_d : ℤ)
    (hcat : t.category = some "income") :
    get_today_spending ⟨exps, t :: txs⟩ today =
      get_today_spending ⟨exps, txs⟩ today ∧
    get_period_spending ⟨exps, t :: txs⟩ start_d end_d =
      get_period_spending ⟨exps, txs⟩ start_d end_d := by
  constructor <;>
    simp [get_today_spending, get_period_spending, List.filter, hcat]

/-- Witness for income_excluded_from_calculator_sums at a concrete
income transaction in front of a one-element spending list. -/
theorem income_excluded_from_calculator_sums_witness :
    get_today_spending ⟨[], [⟨0, 50, "Money In", some "income"⟩, ⟨0, 7, "tea", none⟩]⟩ 0 =
      get_today_spending ⟨[], [⟨0, 7, "tea", none⟩]⟩ 0 ∧
    get_period_spending ⟨[], [⟨0, 50, "Money In", some "income"⟩, ⟨0, 7, "tea", none⟩]⟩ 0 3 =
      get_period_spending ⟨[], [⟨0, 7, "tea", none⟩]⟩ 0 3 :=
  income_excluded_from_calculator_sums [] [⟨0, 7, "tea", none⟩]
    ⟨0, 50, "Money In", some "income"⟩ 0 0 3 rfl

/-- C8 counterexample: BudgetCalculator.add_expense runs only the amount
checks of Expense.__post_init__, so adding an expense whose name is empty
after trimming succeeds instead of failing as the claim states. -/
theorem calculator_add_expense_empty_name_accepted :
    add_expense ⟨[], []⟩ "" 5 true = .ok ⟨[⟨"", 5, true⟩], []⟩ := by
  norm_num [add_expense, mkExpense, MAX_AMOUNT]

/-- C8 amended: BudgetCalculator.add_expense (via Expense.__post_init__)
fails exactly when amount < 0 or amount > 10,000,000 and otherwise
appends the expense — the name is not validated there; the name checks of
the claim hold one layer down: EncryptedDatabase.add_expense fails
exactly when amount < 0, amount > 10,000,000, the name is empty after
trimming, or the name exceeds 200 characters, and otherwise stores the
expense with its name trimmed. -/
theorem add_expense_validation (c : BudgetCalculator) (name : String)
    (amount : ℚ) (is_fixed : Bool) :
    ((∃ e, add_expense c name amount is_fixed = .error e) ↔
      (amount < 0 ∨ 10000000 < amount)) ∧
    (0 ≤ amount → amount ≤ 10000000 →
      add_expense c name amount is_fixed =
        .ok ⟨c.expenses ++ [⟨name, amount, is_fixed⟩], c.transactions⟩) ∧
    ((∃ e, db_add_expense name amount is_fixed = .error e) ↔
      (amount < 0 ∨ 10000000 < amount ∨ pyStrip name = "" ∨ 200 < name.length)) ∧
    (0 ≤ amount → amount ≤ 10000000 → pyStrip name ≠ "" → name.length ≤ 200 →
      db_add_expense name amount is_fixed = .ok ⟨pyStrip name, amount, is_fixed⟩) := by
  refine ⟨?_, ?_, ?_, ?_⟩
  · unfold add_expense mkExpense MAX_AMOUNT
    split_ifs <;> simp_all
  · intro h1 h2
    unfold add_expense mkExpense MAX_AMOUNT
    rw [if_neg (not_lt.mpr h1), if_neg (not_lt.mpr h2)]
  · unfold db_add_expense
    split_ifs <;> simp_all
  · intro h1 h2 h3 h4
    unfold db_add_expense
    rw [if_neg (not_lt.mpr h1), if_neg (not_lt.mpr h2),
      if_neg (by simp [h3]), if_neg (not_lt.mpr h4)]

/-- Witness for add_expense_validation: a valid expense is appended to
the calculator ledger, and a padded name with a valid amount passes all
four database checks and is stored trimmed. -/
theorem add_expense_validation_witness :
    add_expense ⟨[], []⟩ "rent" 100 true = .ok ⟨[⟨"rent", 100, true⟩], []⟩ ∧
    db_add_expense " rent " 1500 true = .ok ⟨pyStrip " rent ", 1500, true⟩ :=
  ⟨(add_expense_validation ⟨[], []⟩ "rent" 100 true).2.1 (by norm_num)
      (by norm_num),
   (add_expense_validation ⟨[], []⟩ " rent " 1500 true).2.2.2 (by norm_num)
      (by norm_num) (by decide) (by decide)⟩

/-- C9 counterexample: the Transaction constructor accepts a zero amount,
so the claim that constructing a transaction with amount zero is rejected
fails on the code. -/
theorem transaction_zero_amount_accepted :
    mkTransaction 0 0 "zero purchase" none = .ok ⟨0, 0, "zero purchase", none⟩ := by
  norm_num [mkTransaction, MAX_AMOUNT]

/-- C9 amended: the in-memory Transaction constructor rejects exactly
negative amounts and amounts over 10,000,000 (zero is accepted), while
recording through the database (EncryptedDatabase.add_transaction) rejects
exactly amount ≤ 0, amount over 10,000,000, or an invalid description. -/
theorem transaction_amount_validation (date : ℤ) (amount : ℚ)
    (description : String) (category : Option String) :
    ((∃ e, mkTransaction date amount description category = .error e) ↔
      (amount < 0 ∨ 10000000 < amount)) ∧
    ((∃ e, db_add_transaction date amount description category = .error e) ↔
      (amount ≤ 0 ∨ 10000000 < amount ∨ pyStrip description = "" ∨
        200 < description.length)) := by
  constructor
  · unfold mkTransaction MAX_AMOUNT
    split_ifs <;> simp_all
  · unfold db_add_transaction
    split_ifs <;> simp_all

/-- C10: get_number forwards only total_money to the fixed-pool
calculation, so its fixed_pool result always equals the no-refinement
call (any target_end_date or daily_spending_limit in the keyword bag is
ignored); with a positive total_money the expenses-based fallback branch
is the one taken; and a mode other than paycheck or fixed_pool is an
error. -/
theorem get_number_dispatch (c : BudgetCalculator) (today : ℤ)
    (mode : String) (kwargs : Kwargs) :
    (get_number c today "fixed_pool" kwargs =
      (calculate_fixed_pool_mode c today (kwargs.total_money.getD 0)
        none none).map FixedPoolResult.daily_limit) ∧
    (0 < kwargs.total_money.getD 0 →
      ∃ r, calculate_fixed_pool_mode c today (kwargs.total_money.getD 0)
          none none = .ok r ∧
        r.calculation_mode = some "expenses_based" ∧
        get_number c today "fixed_pool" kwargs = .ok r.daily_limit) ∧
    (mode ≠ "paycheck" → mode ≠ "fixed_pool" →
      ∃ e, get_number c today mode kwargs = .error e) := by
  refine ⟨?_, ?_, ?_⟩
  · unfold get_number
    rw [if_neg (by decide), if_pos (by decide)]
  · intro h
    have hcalc : ∃ r, calculate_fixed_pool_mode c today
        (kwargs.total_money.getD 0) none none = .ok r ∧
        r.calculation_mode = some "expenses_based" := by
      simp only [calculate_fixed_pool_mode]
      rw [if_neg (not_lt.mpr h.le), if_neg (not_le.mpr h)]
      by_cases hE : get_total_expenses c > 0
      · rw [if_pos hE]; exact ⟨_, rfl, rfl⟩
      · rw [if_neg hE]; exact ⟨_, rfl, rfl⟩
    obtain ⟨r, hr, hmode⟩ := hcalc
    refine ⟨r, hr, hmode, ?_⟩
    unfold get_number
    rw [if_neg (by decide), if_pos (by decide), hr]
    rfl
  · intro h1 h2
    unfold get_number
    rw [if_neg (by simp [h1]), if_neg (by simp [h2])]
    exact ⟨_, rfl⟩

/-- Witness for get_number_dispatch: a keyword bag carrying a target date
and a daily cap still produces the no-refinement fixed-pool result with
the expenses-based branch, and the mode string "bogus" is an error. -/
theorem get_number_dispatch_witness :
    (∃ r, calculate_fixed_pool_mode ⟨[], []⟩ 0
        ((Kwargs.mk none none (some 100) (some 99) (some 5)).total_money.getD 0)
        none none = .ok r ∧
      r.calculation_mode = some "expenses_based" ∧
      get_number ⟨[], []⟩ 0 "fixed_pool" ⟨none, none, some 100, some 99, some 5⟩ =
        .ok r.daily_limit) ∧
    (∃ e, get_number ⟨[], []⟩ 0 "bogus" ⟨none, none, some 100, some 99, some 5⟩ =
      .error e) :=
  ⟨(get_number_dispatch ⟨[], []⟩ 0 "bogus"
      ⟨none, none, some 100, some 99, some 5⟩).2.1 (by norm_num),
   (get_number_dispatch ⟨[], []⟩ 0 "bogus"
      ⟨none, none, some 100, some 99, some 5⟩).2.2 (by decide) (by decide)⟩
